import Mathlib

/-!
Verification of the remote-storage promql query path
(src/service/promql/search/grpc/storage.rs) against its specification.

The Rust source is shallowly embedded: external collaborators (the metadata
index, the object cache, the schema registry, the query parser and the
evaluation engine) are modelled as oracle values carried in an environment
record, and the stateful parts (the local file cache, the per-session table
registrations) are threaded explicitly.  Machine integers are modelled as
Int/Nat with explicit wrap-around where the source casts.
-/

namespace OpenObserve

/-- A file entry: the metadata index returns candidate files as path strings
(`Vec<String>` in the source). -/
abbrev FileName := String

/-- Response of one call to the external metadata index
`file_list::get_file_list`: the candidate file list, or an error message. -/
abbrev IndexResp := Except String (List FileName)

/-- Embeds `get_file_list` (storage.rs lines 168-213): consult the metadata
index; on an index error, log it and return the fixed message
"get file list error" (lines 185-190); otherwise keep exactly the candidates
accepted by the external relevance predicate `match_source` (taken here as
the boolean parameter `ms`), in index order (lines 193-212). -/
def get_file_list (ms : FileName → Bool) (idx : IndexResp) :
    Except String (List FileName) :=
  match idx with
  | Except.error _err => Except.error "get file list error"
  | Except.ok results => Except.ok (results.filter ms)

/-- Call-trace variant of `get_file_list`: the metadata index is modelled as
a stream of successive responses (`idx n` answers the n-th call), and the
function reports how many index calls it makes.  The source awaits a single
call (lines 175-183) whatever the outcome, so the count is always 1: an index
failure is not retried locally. -/
def get_file_list_trace (ms : FileName → Bool) (idx : Nat → IndexResp) :
    Except String (List FileName) × Nat :=
  (get_file_list ms (idx 0), 1)

/-- Response of the external object-cache existence check `file_data::exist`:
`Ok(present?)` or an error. -/
abbrev ExistResp := Except Unit Bool

/-- Embeds the download guard of the per-file task (storage.rs line 63):
`!file_data::exist(&file).unwrap_or_default()`.  `unwrap_or_default`
collapses an existence-check error to `false` (absent), so the guard is true
— i.e. a download is triggered — exactly when the check does not positively
report the file present. -/
def needsDownload (e : ExistResp) : Bool :=
  !(match e with
    | Except.ok b => b
    | Except.error _ => false)

/-- External object-cache collaborators used by the cache-load step: the
existence check (which may inspect the current local cache) and the per-file
download outcome. -/
structure CacheEnv where
  exist : FileName → List FileName → ExistResp
  download : FileName → Except String Unit

/-- Embeds one spawned download-task body (storage.rs lines 62-69) acting on
the local cache: if the existence check does not report the file present,
invoke `file_data::download`; a download failure is only logged
(`log::error!`, line 65) and then swallowed, and the task returns `Ok(())`
(line 69).  A successful download adds the file to the local cache.  Returns
the updated cache together with the task result. -/
def fileTask (env : CacheEnv) (cache : List FileName) (f : FileName) :
    List FileName × Except String Unit :=
  if needsDownload (env.exist f cache) then
    match env.download f with
    | Except.ok _ => (f :: cache, Except.ok ())
    | Except.error _e => (cache, Except.ok ())
  else
    (cache, Except.ok ())

/-- Embeds the cache-load step of `create_context` (storage.rs lines 56-85),
sequentialised: downloads of distinct files commute on the content-addressed
cache, so a sequential pass captures the cache contents and the aggregate
result.  Every task runs to completion (all join handles are awaited), and
the join loop (lines 74-85) keeps the first error found among the task
results — a path that is unreachable absent a task panic, because every task
body returns `Ok(())`. -/
def loadFiles (env : CacheEnv) (cache : List FileName) (files : List FileName) :
    List FileName × Except String Unit :=
  match files with
  | [] => (cache, Except.ok ())
  | f :: rest =>
    let step1 := fileTask env cache f
    let step2 := loadFiles env step1.1 rest
    (step2.1,
      match step1.2 with
      | Except.error e => Except.error e
      | Except.ok _ => step2.2)

/-- The faithful instantiation of the existence check: a file is locally
present exactly when it is in the local cache. -/
def memEnv (dl : FileName → Except String Unit) : CacheEnv :=
  ⟨fun f c => Except.ok (decide (f ∈ c)), dl⟩

/-- Scheduler-level state of one cache-load fan-out (storage.rs lines 56-72):
`permits` counts the free slots of the semaphore created on line 57,
`pending` the tasks that have not yet acquired a permit, `running` the tasks
currently holding a permit (line 60) and downloading, `done` the tasks that
have dropped their permit (line 68) and finished. -/
structure LoaderState where
  permits : Nat
  pending : Nat
  running : Nat
  done : Nat
deriving DecidableEq

/-- One scheduler step of the fan-out: either a pending task acquires a
permit (`acquire_owned`, line 60) and starts its download, or a running task
finishes and drops its permit (line 68). -/
inductive LoadStep : LoaderState → LoaderState → Prop
| acquire (p q r d : Nat) : LoadStep ⟨p + 1, q + 1, r, d⟩ ⟨p, q, r + 1, d⟩
| finish (p q r d : Nat) : LoadStep ⟨p, q, r + 1, d⟩ ⟨p + 1, q, r, d⟩

/-- States reachable by one cache-load invocation of `create_context`: it
starts with a fresh semaphore of capacity `cap`
(`Semaphore::new(CONFIG.limit.query_thread_num)`, line 57) and `n` file
tasks, and evolves by `LoadStep`. -/
inductive LoadReach (cap n : Nat) : LoaderState → Prop
| init : LoadReach cap n ⟨cap, n, 0, 0⟩
| step {s t : LoaderState} : LoadReach cap n s → LoadStep s t → LoadReach cap n t

/-- Two concurrent `create_context` invocations: each call constructs its own
fresh semaphore (line 57), so the two loader states evolve independently and
an interleaving step advances either invocation without touching the other. -/
inductive PairStep : LoaderState × LoaderState → LoaderState × LoaderState → Prop
| left {s t : LoaderState} (u : LoaderState) : LoadStep s t → PairStep (s, u) (t, u)
| right (s : LoaderState) {u v : LoaderState} : LoadStep u v → PairStep (s, u) (s, v)

/-- Joint states reachable by two interleaved cache-load invocations, each
with its own fresh semaphore of capacity `cap` and its own task count. -/
inductive PairReach (cap n₁ n₂ : Nat) : LoaderState × LoaderState → Prop
| init : PairReach cap n₁ n₂ (⟨cap, n₁, 0, 0⟩, ⟨cap, n₂, 0, 0⟩)
| step {s t : LoaderState × LoaderState} :
    PairReach cap n₁ n₂ s → PairStep s t → PairReach cap n₁ n₂ t

/-- One column definition of an arrow schema: name and data type. -/
structure ColumnField where
  name : String
  dtype : String
deriving DecidableEq

/-- An arrow schema: column fields plus a schema-level metadata map
(modelled as an association list). -/
structure Schema where
  fields : List ColumnField
  metadata : List (String × String)
deriving DecidableEq

/-- `Schema::empty()`: no fields, no metadata. -/
def Schema.empty : Schema := ⟨[], []⟩

/-- Embeds `schema.with_metadata(HashMap::new())` (storage.rs lines 102-106):
keep the column fields, replace the schema-level metadata by an empty map. -/
def Schema.withEmptyMetadata (s : Schema) : Schema := ⟨s.fields, []⟩

/-- The evaluator's opaque result value (`promql::value::Value`), not given
further structure by this path. -/
abbrev Value := String

/-- One table registration made through `register_table` under a session id:
the registered schema and the resolved file list. -/
structure Registration where
  sid : String
  schema : Schema
  files : List FileName
deriving DecidableEq

/-- The process-wide session registration store
(`search::datafusion::storage::file_list`): the registrations live keyed by
session id until cleared. -/
abbrev Store := List Registration

/-- Modelled from the spec: `register_table` (the session table binder,
`service::search::datafusion::exec::register_table`, external to this file)
registers the resolved files and schema as a table scoped to the session id
(spec 4.4); the registration is recorded in the session store. -/
def registerTable (st : Store) (sid : String) (schema : Schema)
    (files : List FileName) : Store :=
  ⟨sid, schema, files⟩ :: st

/-- Embeds `file_list::clear(session_id)` (storage.rs line 160): drop every
registration held under the session id. -/
def clearSession (st : Store) (sid : String) : Store :=
  st.filter (fun r => decide (r.sid ≠ sid))

/-- External collaborators of `create_context` and `search`, fixed for the
duration of one call: the metadata-index response, the relevance predicate,
the per-file download outcomes, the schema-registry response, the parser
outcome for the query text, and the value or error the evaluation engine
produces once its table is bound. -/
structure Env where
  indexResp : IndexResp
  matchSource : FileName → Bool
  download : FileName → Except String Unit
  dbSchema : Except String Schema
  parseResult : Except String Unit
  evalResult : Except String Value

/-- Embeds `StorageProvider::create_context` (storage.rs lines 41-125).
Resolve the file list (line 49, errors propagate); an empty list
short-circuits to a fresh context with `Schema::empty()` (lines 51-53);
otherwise load the files into the local cache (lines 56-85), fetch the
stream schema (lines 92-101, an error is terminal), strip its metadata
(lines 102-106) and register the table under the session (lines 107-124).
Returns the schema component of the result (the `SessionContext` itself is
opaque), the updated local cache, and the updated session store. -/
def create_context (env : Env) (cache : List FileName) (st : Store)
    (sid : String) : Except String Schema × List FileName × Store :=
  match get_file_list env.matchSource env.indexResp with
  | Except.error e => (Except.error e, cache, st)
  | Except.ok files =>
    if files.isEmpty then
      (Except.ok Schema.empty, cache, st)
    else
      let load := loadFiles (memEnv env.download) cache files
      match load.2 with
      | Except.error e => (Except.error e, load.1, st)
      | Except.ok _ =>
        match env.dbSchema with
        | Except.error e => (Except.error e, load.1, st)
        | Except.ok s =>
          (Except.ok s.withEmptyMetadata, load.1,
            registerTable st sid s.withEmptyMetadata files)

/-- Modelled from the spec: the external evaluation engine
(`promql::QueryEngine::exec`) is an opaque capability that invokes the
provider's `create_context` to bind its table and then evaluates, returning
a result value or an execution error (spec 6); a context-creation failure
propagates as the execution error. -/
def engineExec (env : Env) (cache : List FileName) (st : Store) (sid : String) :
    Except String Value × List FileName × Store :=
  match create_context env cache st sid with
  | (Except.error e, c2, st2) => (Except.error e, c2, st2)
  | (Except.ok _schema, c2, st2) => (env.evalResult, c2, st2)

/-- The wrapping cast `x as u64` applied to a signed 64-bit value
(storage.rs lines 142, 145, 147): reduce modulo 2^64 into a natural
number. -/
def u64cast (x : Int) : Nat := (x % (2 ^ 64 : Int)).toNat

/-- A Rust `std::time::Duration`: whole seconds and a nanosecond remainder
(always below 10^9 for the constructors used here). -/
structure Duration where
  secs : Nat
  nanos : Nat
deriving DecidableEq

/-- `Duration::from_micros`: split a microsecond count into seconds and
nanoseconds. -/
def Duration.fromMicros (m : Nat) : Duration :=
  ⟨m / 1000000, m % 1000000 * 1000⟩

/-- `Duration::from_secs`. -/
def Duration.fromSecs (s : Nat) : Duration := ⟨s, 0⟩

/-- Total microseconds represented by a duration. -/
def Duration.toMicros (d : Duration) : Int :=
  (d.secs : Int) * 1000000 + (d.nanos / 1000 : Nat)

/-- A Rust `std::time::SystemTime` on a 64-bit Unix platform (the deployment
target): a timespec of signed 64-bit seconds since the epoch plus
nanoseconds.  `UNIX_EPOCH` is `⟨0, 0⟩`. -/
structure SysTime where
  secs : Int
  nanos : Nat
deriving DecidableEq

/-- Largest value of a signed 64-bit seconds field. -/
def i64max : Nat := 2 ^ 63 - 1

/-- `UNIX_EPOCH.checked_add(d)`: adding a duration to the epoch succeeds
exactly when the second count fits the signed 64-bit seconds field of the
timespec; otherwise `None` (and the source's `.unwrap()` would panic). -/
def epochCheckedAdd (d : Duration) : Option SysTime :=
  if d.secs ≤ i64max then some ⟨(d.secs : Int), d.nanos⟩ else none

/-- Microseconds since the epoch represented by a system time. -/
def SysTime.toMicros (t : SysTime) : Int :=
  t.secs * 1000000 + (t.nanos / 1000 : Nat)

/-- The evaluation statement built by `search` (storage.rs lines 139-149):
absolute start and end times, the evaluation interval, and the lookback
window. -/
structure EvalStmt where
  startTime : SysTime
  endTime : SysTime
  interval : Duration
  lookback : Duration
deriving DecidableEq

/-- Embeds the `EvalStmt` construction of `search` (storage.rs lines
139-149): start and end are `UNIX_EPOCH.checked_add(Duration::from_micros(v
as u64)).unwrap()`, the interval is `Duration::from_micros(step as u64)`,
and the lookback is the fixed `Duration::from_secs(300)`.  `none` models the
panic of `.unwrap()` when `checked_add` overflows. -/
def buildEvalStmt (start endv step : Int) : Option EvalStmt :=
  match epochCheckedAdd (Duration.fromMicros (u64cast start)),
      epochCheckedAdd (Duration.fromMicros (u64cast endv)) with
  | some s, some e =>
      some ⟨s, e, Duration.fromMicros (u64cast step), Duration.fromSecs 300⟩
  | _, _ => none

/-- The request statement `cluster_rpc::MetricsQueryStmt`: query text plus
start, end and step as signed 64-bit microsecond values. -/
structure MetricsQueryStmt where
  query : String
  start : Int
  endv : Int
  step : Int

/-- Embeds `search` (storage.rs lines 129-165).  Parse the query text (lines
134-137, a parse error returns immediately); build the evaluation statement
(lines 139-149, `none` models the unwrap panic); run the engine, which binds
the session table through `create_context` and evaluates (lines 151-157) —
on an engine error the `?` operator on line 157 returns at once WITHOUT
clearing the session; on success clear the session registrations (lines
159-162) and return the value. -/
def search (env : Env) (cache : List FileName) (st : Store) (sid : String)
    (q : MetricsQueryStmt) :
    Option (Except String Value × List FileName × Store) :=
  match env.parseResult with
  | Except.error e => some (Except.error e, cache, st)
  | Except.ok _ =>
    match buildEvalStmt q.start q.endv q.step with
    | none => none
    | some _stmt =>
      match engineExec env cache st sid with
      | (Except.error e, c2, st2) => some (Except.error e, c2, st2)
      | (Except.ok v, c2, st2) => some (Except.ok v, c2, clearSession st2 sid)

/-! Helper lemmas about the cache-load step, shared by several claims. -/

lemma fileTask_snd (env : CacheEnv) (cache : List FileName) (f : FileName) :
    (fileTask env cache f).2 = Except.ok () := by
  unfold fileTask
  split
  · cases env.download f <;> rfl
  · rfl

lemma fileTask_cache_subset (env : CacheEnv) (cache : List FileName) (f g : FileName)
    (hg : g ∈ cache) : g ∈ (fileTask env cache f).1 := by
  unfold fileTask
  split
  · cases env.download f with
    | error e => exact hg
    | ok v => exact List.mem_cons_of_mem f hg
  · exact hg

lemma loadFiles_snd (env : CacheEnv) :
    ∀ (files cache : List FileName), (loadFiles env cache files).2 = Except.ok () := by
  intro files
  induction files with
  | nil => intro cache; rfl
  | cons f rest ih =>
    intro cache
    simp only [loadFiles, fileTask_snd]
    exact ih _

lemma loadFiles_cache_subset (env : CacheEnv) :
    ∀ (files cache : List FileName) (g : FileName), g ∈ cache →
      g ∈ (loadFiles env cache files).1 := by
  intro files
  induction files with
  | nil => intro cache g hg; exact hg
  | cons f rest ih =>
    intro cache g hg
    simp only [loadFiles]
    exact ih _ _ (fileTask_cache_subset env cache f g hg)

lemma fileTask_mem_self (dl : FileName → Except String Unit) (cache : List FileName)
    (f : FileName) (hdl : dl f = Except.ok ()) :
    f ∈ (fileTask (memEnv dl) cache f).1 := by
  unfold fileTask memEnv
  by_cases hc : f ∈ cache
  · simp [needsDownload, hc]
  · simp [needsDownload, hc, hdl]

lemma loadFiles_mem_of_ok (dl : FileName → Except String Unit) (f : FileName)
    (hdl : dl f = Except.ok ()) :
    ∀ (files cache : List FileName), f ∈ files →
      f ∈ (loadFiles (memEnv dl) cache files).1 := by
  intro files
  induction files with
  | nil => intro cache h; cases h
  | cons g rest ih =>
    intro cache hf
    simp only [loadFiles]
    rcases List.mem_cons.mp hf with heq | hmem
    · subst heq
      exact loadFiles_cache_subset _ _ _ _ (fileTask_mem_self dl cache f hdl)
    · exact ih _ hmem

/-- C1 counterexample: with an empty local cache and files "a", "b" where the
download of "a" fails and the download of "b" succeeds, the cache-load step
returns `Ok(())` — NOT an error as the claim states: the download failure is
logged and swallowed inside the task body (storage.rs lines 64-66), and every
task returns `Ok(())`, so the join loop never sees an error.  The
successfully downloaded "b" does remain cached. -/
theorem c1_counterexample :
    loadFiles
        (memEnv (fun f => if f = "b" then Except.ok () else Except.error "download failed"))
        [] ["a", "b"] = (["b"], Except.ok ()) := by rfl

/-- C1 (amended): individual download failures are logged and do not stop
sibling downloads, and every file whose download succeeds (as well as every
file already cached) is in the local cache afterwards — but the aggregate
cache-load step always returns success (`Ok(())`): download errors are
swallowed inside the task bodies, and the join loop's first-error
propagation (storage.rs lines 74-85) is unreachable absent a task panic. -/
theorem c1_amended (dl : FileName → Except String Unit) (cache files : List FileName)
    (f : FileName) (hf : f ∈ files) (hdl : dl f = Except.ok ()) :
    (loadFiles (memEnv dl) cache files).2 = Except.ok () ∧
    f ∈ (loadFiles (memEnv dl) cache files).1 ∧
    ∀ g ∈ cache, g ∈ (loadFiles (memEnv dl) cache files).1 :=
  ⟨loadFiles_snd _ _ _, loadFiles_mem_of_ok dl f hdl files cache hf,
    fun g hg => loadFiles_cache_subset _ files cache g hg⟩

/-- Witness for `c1_amended` at a concrete input: files "a", "b" over a
cache already holding "c", with the download of "b" succeeding. -/
theorem c1_witness :
    (loadFiles (memEnv (fun f => if f = "b" then Except.ok () else Except.error "boom"))
        ["c"] ["a", "b"]).2 = Except.ok () ∧
    "b" ∈ (loadFiles (memEnv (fun f => if f = "b" then Except.ok () else Except.error "boom"))
        ["c"] ["a", "b"]).1 ∧
    ∀ g ∈ ["c"],
      g ∈ (loadFiles (memEnv (fun f => if f = "b" then Except.ok () else Except.error "boom"))
        ["c"] ["a", "b"]).1 :=
  c1_amended (fun f => if f = "b" then Except.ok () else Except.error "boom")
    ["c"] ["a", "b"] "b" (by simp) (by simp)

/-- C5: the per-file task invokes a download exactly when the existence
check does not report the file present — i.e. when the check returns
`Ok(false)` or an error (an existence-check error is collapsed to "absent"
by `unwrap_or_default`, storage.rs line 63); a file reported present
(`Ok(true)`) triggers no download. -/
theorem c5_download_iff_absent (e : ExistResp) :
    needsDownload e = true ↔ e ≠ Except.ok true := by
  cases e with
  | error u => simp [needsDownload]
  | ok b => cases b <;> simp [needsDownload]

/-- C6: on a successful metadata-index lookup, `get_file_list` returns
exactly the candidates satisfying the relevance predicate, as a filtered
subsequence of the index result in its original order. -/
theorem c6_filter_subsequence (ms : FileName → Bool) (results files : List FileName)
    (h : get_file_list ms (Except.ok results) = Except.ok files) :
    files = results.filter ms ∧ files.Sublist results ∧
    ∀ f, f ∈ files ↔ f ∈ results ∧ ms f = true := by
  have h2 : Except.ok (results.filter ms) = Except.ok files := h
  have hf : results.filter ms = files := by injection h2
  subst hf
  exact ⟨rfl, results.filter_sublist, fun f => List.mem_filter⟩

/-- Witness for `c6_filter_subsequence` at a concrete input: the index
returns "keep" then "drop", and the predicate accepts only "keep". -/
theorem c6_witness :
    (["keep"] : List FileName) =
        (["keep", "drop"] : List FileName).filter (fun f => decide (f = "keep")) ∧
    (["keep"] : List FileName).Sublist ["keep", "drop"] ∧
    ∀ f, f ∈ (["keep"] : List FileName) ↔
      f ∈ (["keep", "drop"] : List FileName) ∧ decide (f = "keep") = true :=
  c6_filter_subsequence (fun f => decide (f = "keep")) ["keep", "drop"] ["keep"] (by rfl)

/-- C7 counterexample: the error surfaced on a metadata-index failure is the
fixed string "get file list error" (storage.rs lines 185-190), identical for
two different underlying causes — so it does not name the underlying cause
(which is only logged). -/
theorem c7_counterexample :
    get_file_list (fun _ => true) (Except.error "connection refused") =
        Except.error "get file list error" ∧
    get_file_list (fun _ => true) (Except.error "timeout") =
        Except.error "get file list error" ∧
    "get file list error" ≠ "connection refused" :=
  ⟨rfl, rfl, by decide⟩

/-- C7 (amended): a metadata-index failure is surfaced as a single terminal
error with the fixed message "get file list error" (the underlying cause is
logged, not returned), and the index is consulted exactly once per call —
no local retry on failure. -/
theorem c7_amended (ms : FileName → Bool) (cause : String) :
    get_file_list ms (Except.error cause) = Except.error "get file list error" ∧
    ∀ idx : Nat → IndexResp, (get_file_list_trace ms idx).2 = 1 :=
  ⟨rfl, fun _ => rfl⟩

lemma loadReach_invariant (cap n : Nat) (s : LoaderState) (h : LoadReach cap n s) :
    s.permits + s.running = cap := by
  induction h with
  | init => rfl
  | step hr hstep ih =>
    cases hstep with
    | acquire p q r d => dsimp only at ih ⊢; omega
    | finish p q r d => dsimp only at ih ⊢; omega

/-- C4 (amended): within one cache-load invocation, at most `cap` download
tasks hold a permit of the invocation's semaphore at any instant, where
`cap` is the configured `query_thread_num` — the per-call concurrency bound
the claim states.  (The claim's other half — that the permit pool is shared
process-wide across queries — fails: see the counterexample.) -/
theorem c4_bounded (cap n : Nat) (s : LoaderState) (h : LoadReach cap n s) :
    s.running ≤ cap := by
  have hinv := loadReach_invariant cap n s h
  omega

/-- Witness for `c4_bounded`: the initial state of a load of 3 files under
capacity 2 is reachable and satisfies the bound. -/
theorem c4_witness : (⟨2, 3, 0, 0⟩ : LoaderState).running ≤ 2 :=
  c4_bounded 2 3 ⟨2, 3, 0, 0⟩ LoadReach.init

/-- C4 counterexample: each `create_context` invocation constructs its OWN
fresh semaphore (storage.rs line 57), so the permit pool is per-call, not
process-wide.  With capacity 1, two interleaved invocations of one file each
can both be mid-download simultaneously: the joint state where both loaders
have one running task is reachable, and the total number of in-flight
downloads is then 2 > 1 — impossible under a process-wide shared pool of
capacity 1. -/
theorem c4_counterexample :
    PairReach 1 1 1 (⟨0, 0, 1, 0⟩, ⟨0, 0, 1, 0⟩) ∧
    1 < (⟨0, 0, 1, 0⟩ : LoaderState).running + (⟨0, 0, 1, 0⟩ : LoaderState).running := by
  refine ⟨?_, by decide⟩
  have h1 : PairReach 1 1 1 ((⟨1, 1, 0, 0⟩ : LoaderState), (⟨1, 1, 0, 0⟩ : LoaderState)) :=
    PairReach.init
  have h2 := PairReach.step h1 (PairStep.left _ (LoadStep.acquire 0 0 0 0))
  exact PairReach.step h2 (PairStep.right _ (LoadStep.acquire 0 0 0 0))

/-- C3: when the resolved file list is empty, `create_context` short-circuits
(storage.rs lines 51-53) and returns successfully with a fresh session
context and `Schema::empty()` — no error, no cache activity, no table
registration — so a query matching no files proceeds to an empty result. -/
theorem c3_empty_short_circuit (env : Env) (cache : List FileName) (st : Store)
    (sid : String) (h : get_file_list env.matchSource env.indexResp = Except.ok []) :
    create_context env cache st sid = (Except.ok Schema.empty, cache, st) := by
  unfold create_context
  rw [h]
  rfl

/-- Witness for `c3_empty_short_circuit`: an index returning no candidates
(even with the schema registry unavailable) yields the empty-schema success. -/
theorem c3_witness :
    create_context
        ⟨Except.ok [], fun _ => true, fun _ => Except.ok (),
          Except.error "no schema", Except.ok (), Except.error "unused"⟩ [] [] "s1" =
      (Except.ok Schema.empty, [], []) :=
  c3_empty_short_circuit _ [] [] "s1" rfl

/-- C8: for a non-empty resolved file list, the schema registered with the
table is the stream's latest schema with its metadata map replaced by an
empty one (`with_metadata(HashMap::new())`, storage.rs lines 102-106,
keeping only the column fields), and a failing schema fetch makes the whole
`create_context` fail with the underlying error (lines 93-101). -/
theorem c8_schema_resolution (env : Env) (cache : List FileName) (st : Store)
    (sid : String) (files : List FileName)
    (hf : get_file_list env.matchSource env.indexResp = Except.ok files)
    (hne : files ≠ []) :
    (∀ e, env.dbSchema = Except.error e →
      create_context env cache st sid =
        (Except.error e, (loadFiles (memEnv env.download) cache files).1, st)) ∧
    (∀ s, env.dbSchema = Except.ok s →
      create_context env cache st sid =
        (Except.ok s.withEmptyMetadata,
          (loadFiles (memEnv env.download) cache files).1,
          registerTable st sid s.withEmptyMetadata files)) := by
  have hload : (loadFiles (memEnv env.download) cache files).2 = Except.ok () :=
    loadFiles_snd _ _ _
  have hemp : files.isEmpty = false := by
    cases files with
    | nil => exact absurd rfl hne
    | cons a l => rfl
  constructor
  · intro e he
    unfold create_context
    rw [hf]
    simp [hemp, hload, he]
  · intro s hs
    unfold create_context
    rw [hf]
    simp [hemp, hload, hs]

/-- Witness for `c8_schema_resolution`: one resolved file, a schema with one
column and one metadata entry; the registered schema keeps the column and
drops the metadata. -/
theorem c8_witness :
    create_context
        ⟨Except.ok ["f1"], fun _ => true, fun _ => Except.ok (),
          Except.ok ⟨[⟨"v", "Int64"⟩], [("created_at", "1")]⟩, Except.ok (),
          Except.ok "val"⟩ [] [] "s2" =
      (Except.ok ⟨[⟨"v", "Int64"⟩], []⟩, ["f1"],
        [⟨"s2", ⟨[⟨"v", "Int64"⟩], []⟩, ["f1"]⟩]) := by
  have h :=
    (c8_schema_resolution
      ⟨Except.ok ["f1"], fun _ => true, fun _ => Except.ok (),
        Except.ok ⟨[⟨"v", "Int64"⟩], [("created_at", "1")]⟩, Except.ok (),
        Except.ok "val"⟩ [] [] "s2" ["f1"] rfl (List.cons_ne_nil _ _)).2
      ⟨[⟨"v", "Int64"⟩], [("created_at", "1")]⟩ rfl
  exact h

/-- C2 is a code bug: the session registrations are cleared only on the
success path.  On the error path the question-mark operator on storage.rs
line 157 returns before `file_list::clear` on line 160 runs.  Concretely:
the query parses, one file resolves and its table is registered under the
session, then the engine reports an execution error — `search` returns the
error while the registration for "sess1" is still in the store (clearing it,
as the claim requires, would have emptied the store, as the final conjunct
shows). -/
theorem c2_bug :
    search
        ⟨Except.ok ["f1"], fun _ => true, fun _ => Except.ok (),
          Except.ok ⟨[⟨"value", "Float64"⟩], [("created_at", "1")]⟩,
          Except.ok (), Except.error "exec error"⟩ [] [] "sess1" ⟨"up", 0, 0, 0⟩ =
      some (Except.error "exec error", ["f1"],
        [⟨"sess1", ⟨[⟨"value", "Float64"⟩], []⟩, ["f1"]⟩]) ∧
    clearSession [⟨"sess1", ⟨[⟨"value", "Float64"⟩], []⟩, ["f1"]⟩] "sess1" = [] := by
  constructor
  · rfl
  · rfl

lemma u64cast_lt (x : Int) : u64cast x < 2 ^ 64 := by
  unfold u64cast
  have e : (2 : Int) ^ 64 = 18446744073709551616 := by norm_num
  have e2 : (2 : Nat) ^ 64 = 18446744073709551616 := by norm_num
  rw [e, e2]
  omega

lemma u64cast_of_range (x : Int) (h0 : 0 ≤ x) (h : x < 2 ^ 64) :
    (u64cast x : Int) = x := by
  unfold u64cast
  have e : (2 : Int) ^ 64 = 18446744073709551616 := by norm_num
  rw [e] at h ⊢
  omega

lemma epochCheckedAdd_micros (m : Nat) (h : m < 2 ^ 64) :
    epochCheckedAdd (Duration.fromMicros m) =
      some ⟨((m / 1000000 : Nat) : Int), m % 1000000 * 1000⟩ := by
  unfold epochCheckedAdd Duration.fromMicros i64max
  have hle : m / 1000000 ≤ 9223372036854775807 := by
    have e : (2 : Nat) ^ 64 = 18446744073709551616 := by norm_num
    rw [e] at h
    omega
  have e2 : (2 : Nat) ^ 63 - 1 = 9223372036854775807 := by norm_num
  rw [e2]
  simp [hle]

lemma toMicros_of_micros (m : Nat) :
    SysTime.toMicros ⟨((m / 1000000 : Nat) : Int), m % 1000000 * 1000⟩ = m := by
  unfold SysTime.toMicros
  dsimp only
  omega

lemma durToMicros_of_micros (m : Nat) :
    Duration.toMicros (Duration.fromMicros m) = m := by
  unfold Duration.toMicros Duration.fromMicros
  dsimp only
  omega

lemma buildEvalStmt_eq (s e st : Int) :
    buildEvalStmt s e st =
      some ⟨⟨((u64cast s / 1000000 : Nat) : Int), u64cast s % 1000000 * 1000⟩,
        ⟨((u64cast e / 1000000 : Nat) : Int), u64cast e % 1000000 * 1000⟩,
        Duration.fromMicros (u64cast st), Duration.fromSecs 300⟩ := by
  unfold buildEvalStmt
  rw [epochCheckedAdd_micros (u64cast s) (u64cast_lt s),
    epochCheckedAdd_micros (u64cast e) (u64cast_lt e)]

/-- C9 counterexample: for a request with start = -1 (a well-formed query
otherwise), the statement built by `search` does NOT have its start equal to
the epoch plus -1 microseconds: the `as u64` cast wraps -1 to 2^64 - 1, so
the built start is a far-future time, 2^64 - 1 microseconds past the epoch. -/
theorem c9_counterexample :
    buildEvalStmt (-1) 0 0 =
      some ⟨⟨18446744073709, 551615000⟩, ⟨0, 0⟩, ⟨0, 0⟩, ⟨300, 0⟩⟩ ∧
    SysTime.toMicros ⟨18446744073709, 551615000⟩ ≠ (-1 : Int) := by
  constructor
  · rfl
  · decide

/-- C9 (amended): for requests whose start, end and step are nonnegative
signed 64-bit values, the evaluation statement built by `search` has start
and end equal to the Unix epoch plus the request's start and end in
microseconds, interval equal to the step in microseconds, and a lookback
window of exactly 300 seconds (`Duration::from_secs(300)`, storage.rs line
148) independent of the step and of every request field; for negative values
the `as u64` cast wraps and the time equalities fail. -/
theorem c9_amended (s e st : Int)
    (hs0 : 0 ≤ s) (hs : s < 2 ^ 63) (he0 : 0 ≤ e) (he : e < 2 ^ 63)
    (ht0 : 0 ≤ st) (ht : st < 2 ^ 63) :
    ∃ stmt : EvalStmt, buildEvalStmt s e st = some stmt ∧
      stmt.startTime.toMicros = s ∧ stmt.endTime.toMicros = e ∧
      stmt.interval.toMicros = st ∧ stmt.lookback = Duration.fromSecs 300 := by
  have hpow : (2 : Int) ^ 63 < 2 ^ 64 := by norm_num
  refine ⟨_, buildEvalStmt_eq s e st, ?_, ?_, ?_, rfl⟩
  · rw [toMicros_of_micros]
    exact u64cast_of_range s hs0 (lt_trans hs hpow)
  · rw [toMicros_of_micros]
    exact u64cast_of_range e he0 (lt_trans he hpow)
  · rw [durToMicros_of_micros]
    exact u64cast_of_range st ht0 (lt_trans ht hpow)

/-- Witness for `c9_amended` at a concrete request: start one second past
the epoch, end two seconds past it, step thirty seconds. -/
theorem c9_witness :
    ∃ stmt : EvalStmt, buildEvalStmt 1000000 2000000 30000000 = some stmt ∧
      stmt.startTime.toMicros = 1000000 ∧ stmt.endTime.toMicros = 2000000 ∧
      stmt.interval.toMicros = 30000000 ∧ stmt.lookback = Duration.fromSecs 300 :=
  c9_amended 1000000 2000000 30000000 (by norm_num) (by norm_num) (by norm_num)
    (by norm_num) (by norm_num) (by norm_num)

/-- C10 counterexample: a search request whose start, end and step are all
-1 (a negative start the claim says must panic) completes normally: the
wrapped duration still fits the 64-bit Unix time representation, so
`UNIX_EPOCH.checked_add(..)` succeeds and `.unwrap()` never fires — the call
even returns a successful value here (over an empty file list). -/
theorem c10_counterexample :
    search
        ⟨Except.ok [], fun _ => true, fun _ => Except.ok (), Except.error "no schema",
          Except.ok (), Except.ok "v"⟩ [] [] "s1" ⟨"up", -1, -1, -1⟩ =
      some (Except.ok "v", [], []) := by rfl

/-- C10 (amended): the timestamp conversion in `search` never panics for ANY
signed 64-bit start/end/step: the `as u64` cast wraps into [0, 2^64), and a
duration of fewer than 2^64 microseconds always fits the signed 64-bit
seconds field of the Unix time representation, so the `checked_add` always
returns a value and the `.unwrap()` is safe — negative inputs are mapped
silently to far-future timestamps instead of panicking or erroring.
Consequently `search` never reaches the panic outcome (`none`). -/
theorem c10_amended (env : Env) (cache : List FileName) (st : Store) (sid : String)
    (q : MetricsQueryStmt) :
    (buildEvalStmt q.start q.endv q.step).isSome = true ∧
    search env cache st sid q ≠ none := by
  constructor
  · rw [buildEvalStmt_eq]
    rfl
  · unfold search
    cases env.parseResult with
    | error e => simp
    | ok u =>
      rw [buildEvalStmt_eq]
      cases hee : engineExec env cache st sid with
      | mk r rest =>
        cases r with
        | error e => simp [hee]
        | ok v => simp [hee]

end OpenObserve
